import Mathlib

/-!
Shallow embedding of `src/src/database_async.cc` (leveldown's asynchronous
worker layer) and proofs about its behaviour.

The file under `src/` defines the operation-variant workers (Open, Close,
Read, Delete, Write, Batch, ApproximateSize): their constructors, `Execute`
bodies, `WorkComplete` overrides and `HandleOKCallback` overrides.  The base
`AsyncWorker` (async.h) and the `Database` methods live outside `src/`;
where a claim depends on them they are modelled from the spec, and each such
definition says so in its doc comment.
-/

namespace Leveldown

/-- A byte sequence crossing the JS/C++ boundary (a `leveldb::Slice` or
buffer contents), each byte a `Nat` below 256 in intent. -/
abbrev Bytes := List Nat

/-- `leveldb::Status` as the workers observe it: `ok` plus the error
constructors leveldb distinguishes. -/
inductive Status where
  | ok : Status
  | notFound (msg : String) : Status
  | corruption (msg : String) : Status
  | notSupported (msg : String) : Status
  | invalidArgument (msg : String) : Status
  | ioError (msg : String) : Status
deriving DecidableEq, Repr

/-- `leveldb::Status::ok()`: true exactly for the `ok` constructor. -/
def Status.isOk : Status → Bool
  | .ok => true
  | _ => false

/-- `leveldb::CompressionType`: the two codecs the open path selects
between. -/
inductive CompressionType where
  | kNoCompression : CompressionType
  | kSnappyCompression : CompressionType
deriving DecidableEq, Repr

/-- The fields of `leveldb::Options` that `OpenWorker`'s constructor
assigns (database_async.cc lines 35-46).  Pointer-valued fields
(`block_cache`, `filter_policy`) are modelled as opaque numeric
identifiers of the objects handed in. -/
structure Options where
  block_cache : Nat
  filter_policy : Nat
  create_if_missing : Bool
  error_if_exists : Bool
  compression : CompressionType
  write_buffer_size : Nat
  block_size : Nat
  max_open_files : Nat
  block_restart_interval : Nat
deriving DecidableEq, Repr

/-- `leveldb::ReadOptions` as assigned by `ReadWorker`'s constructor. -/
structure ReadOptions where
  fill_cache : Bool
deriving DecidableEq, Repr

/-- `leveldb::WriteOptions` as assigned by `DeleteWorker` / `BatchWorker`
constructors. -/
structure WriteOptions where
  sync : Bool
deriving DecidableEq, Repr

/-- The options record built by `OpenWorker::OpenWorker`
(database_async.cc lines 21-47): every scalar option is assigned from the
corresponding constructor argument, and the `compression` flag picks
`kSnappyCompression` when true and `kNoCompression` when false. -/
def OpenWorker.mkOptions (blockCache filterPolicy : Nat)
    (createIfMissing errorIfExists compression : Bool)
    (writeBufferSize blockSize maxOpenFiles blockRestartInterval : Nat) :
    Options :=
  { block_cache := blockCache
    filter_policy := filterPolicy
    create_if_missing := createIfMissing
    error_if_exists := errorIfExists
    compression :=
      if compression then CompressionType.kSnappyCompression
      else CompressionType.kNoCompression
    write_buffer_size := writeBufferSize
    block_size := blockSize
    max_open_files := maxOpenFiles
    block_restart_interval := blockRestartInterval }

/-- The synchronous behaviour of the `Database` handle's methods, as seen
from `Execute`.  Each field gives the result of one blocking call;
quantifying over a `Db` quantifies over every possible engine outcome
(success and every failure status).  `CloseDatabase` returns `void` in the
source and so has no field here; `ApproximateSizeFromDatabase` returns a
`uint64` and never a status. -/
structure Db where
  openResult : Options → Status
  getResult : ReadOptions → Bytes → Status × Bytes
  deleteResult : WriteOptions → Bytes → Status
  putResult : WriteOptions → Bytes → Bytes → Status
  batchResult : WriteOptions → Status
  approximateSizeResult : Bytes → Bytes → Nat

/-- One call made into the `Database` handle by an `Execute` body. -/
inductive DbCall where
  | openDatabase (o : Options) : DbCall
  | closeDatabase : DbCall
  | getFromDatabase (o : ReadOptions) (key : Bytes) : DbCall
  | deleteFromDatabase (o : WriteOptions) (key : Bytes) : DbCall
  | putToDatabase (o : WriteOptions) (key : Bytes) (value : Bytes) : DbCall
  | writeBatchToDatabase (o : WriteOptions) : DbCall
  | approximateSizeFromDatabase (start limit : Bytes) : DbCall
deriving DecidableEq, Repr

/-- The mutable slots of a worker that `Execute` may write: the status slot
(`SetStatus`; `none` while no status has ever been recorded), the value
read back by `ReadWorker`, and the size estimate of
`ApproximateSizeWorker`. -/
structure WorkerState where
  status : Option Status
  value : Bytes
  size : Nat
deriving DecidableEq, Repr

/-- A freshly constructed worker: no status recorded, empty value, zero
size. -/
def initWorker : WorkerState :=
  { status := none, value := [], size := 0 }

/-- `AsyncWorker::SetStatus`: records the status of a database call in the
worker's status slot. -/
def SetStatus (w : WorkerState) (s : Status) : WorkerState :=
  { w with status := some s }

/-- `OpenWorker::Execute` (lines 53-55): `SetStatus(database->OpenDatabase(options))`. -/
def OpenWorker.Execute (db : Db) (o : Options) (w : WorkerState) :
    WorkerState × List DbCall :=
  (SetStatus w (db.openResult o), [DbCall.openDatabase o])

/-- `CloseWorker::Execute` (lines 67-69): `database->CloseDatabase()`.
`CloseDatabase` returns `void`, and the body calls no `SetStatus`, so the
worker state is untouched. -/
def CloseWorker.Execute (w : WorkerState) : WorkerState × List DbCall :=
  (w, [DbCall.closeDatabase])

/-- `ReadWorker::Execute` (lines 125-127):
`SetStatus(database->GetFromDatabase(options, key, value))`, where `value`
is the worker's out-parameter slot. -/
def ReadWorker.Execute (db : Db) (o : ReadOptions) (key : Bytes)
    (w : WorkerState) : WorkerState × List DbCall :=
  let r := db.getResult o key
  ({ SetStatus w r.1 with value := r.2 }, [DbCall.getFromDatabase o key])

/-- `DeleteWorker::Execute` (lines 169-171):
`SetStatus(database->DeleteFromDatabase(options, key))`. -/
def DeleteWorker.Execute (db : Db) (o : WriteOptions) (key : Bytes)
    (w : WorkerState) : WorkerState × List DbCall :=
  (SetStatus w (db.deleteResult o key), [DbCall.deleteFromDatabase o key])

/-- `WriteWorker::Execute` (lines 193-195):
`SetStatus(database->PutToDatabase(options, key, value))`. -/
def WriteWorker.Execute (db : Db) (o : WriteOptions) (key value : Bytes)
    (w : WorkerState) : WorkerState × List DbCall :=
  (SetStatus w (db.putResult o key value), [DbCall.putToDatabase o key value])

/-- `BatchWorker::Execute` (lines 223-225):
`SetStatus(database->WriteBatchToDatabase(options, batch))`. -/
def BatchWorker.Execute (db : Db) (o : WriteOptions) (w : WorkerState) :
    WorkerState × List DbCall :=
  (SetStatus w (db.batchResult o), [DbCall.writeBatchToDatabase o])

/-- `ApproximateSizeWorker::Execute` (lines 247-249):
`size = database->ApproximateSizeFromDatabase(&range)` — the result goes to
the worker's `size` slot and no `SetStatus` call is made. -/
def ApproximateSizeWorker.Execute (db : Db) (start limit : Bytes)
    (w : WorkerState) : WorkerState × List DbCall :=
  ({ w with size := db.approximateSizeResult start limit },
   [DbCall.approximateSizeFromDatabase start limit])

/-- One submitted operation with its variant-specific payload, the options
its worker constructor built, and (for Read) the caller's `asBuffer`
flag. -/
inductive Operation where
  | openOp (o : Options) : Operation
  | closeOp : Operation
  | readOp (o : ReadOptions) (key : Bytes) (asBuffer : Bool) : Operation
  | deleteOp (o : WriteOptions) (key : Bytes) : Operation
  | writeOp (o : WriteOptions) (key value : Bytes) : Operation
  | batchOp (o : WriteOptions) : Operation
  | approximateSizeOp (start limit : Bytes) : Operation
deriving DecidableEq, Repr

/-- Virtual dispatch of the `Execute` phase to the operation variant's
body. -/
def Execute (db : Db) (op : Operation) (w : WorkerState) :
    WorkerState × List DbCall :=
  match op with
  | .openOp o => OpenWorker.Execute db o w
  | .closeOp => CloseWorker.Execute w
  | .readOp o key _ => ReadWorker.Execute db o key w
  | .deleteOp o key => DeleteWorker.Execute db o key w
  | .writeOp o key value => WriteWorker.Execute db o key value w
  | .batchOp o => BatchWorker.Execute db o w
  | .approximateSizeOp start limit =>
      ApproximateSizeWorker.Execute db start limit w

/-- Number of binary digits of `n`, computed with explicit fuel (64
suffices for any `uint64`). -/
def bitLen : Nat → Nat → Nat
  | 0, _ => 0
  | fuel + 1, n => if n = 0 then 0 else bitLen fuel (n / 2) + 1

/-- Round `n` to the nearest multiple of `2 ^ k`, ties to even — the IEEE-754
round-to-nearest-even rule applied at granularity `2 ^ k` (meaningful for
`k ≥ 1`). -/
def roundRNE (n k : Nat) : Nat :=
  let q := n / 2 ^ k
  let r := n % 2 ^ k
  let half := 2 ^ (k - 1)
  if r < half then q * 2 ^ k
  else if half < r then (q + 1) * 2 ^ k
  else if q % 2 = 0 then q * 2 ^ k else (q + 1) * 2 ^ k

/-- The exact value of the C cast `(double) size` for a `uint64_t` `size`
(database_async.cc line 263): the nearest IEEE-754 binary64 value, ties to
even.  Values of at most `2 ^ 53` are representable exactly; larger ones
are rounded to 53 significant bits (every `uint64` is far below the
binary64 overflow threshold, so the result is always finite and an
integer). -/
def doubleOfUInt64 (n : Nat) : Nat :=
  if n ≤ 2 ^ 53 then n else roundRNE n (bitLen 64 n - 53)

/-- One argument of a callback invocation, as built by the
`HandleOKCallback` / `HandleErrorCallback` bodies: JS `null`, a buffer
holding bytes, a string decoded from bytes, a JS number, or an error object
translated from a status. -/
inductive CallbackArg where
  | null : CallbackArg
  | buffer (bytes : Bytes) : CallbackArg
  | str (bytes : Bytes) : CallbackArg
  | num (n : Nat) : CallbackArg
  | error (s : Status) : CallbackArg
deriving DecidableEq, Repr

/-- One observable effect of the completion phase: releasing the persistent
buffer-carrier slot named `slot` (`DisposeStringOrBufferFromSlice` on
`GetFromPersistent(slot)`), invoking the completion callback with `args`,
or releasing the callback reference. -/
inductive Event where
  | dispose (slot : String) : Event
  | callbackCall (args : List CallbackArg) : Event
  | callbackRelease : Event
deriving DecidableEq, Repr

/-- Modelled from the spec: the base `AsyncWorker::HandleOKCallback`
(declared in async.h, which is not under src/).  Open, Close, Delete,
Write and Batch have success result shape "none (callback with null
result)", and "on success `error` is absent/null", so the callback is
invoked with a single null argument. -/
def AsyncWorker.HandleOKCallback : List Event :=
  [Event.callbackCall [CallbackArg.null]]

/-- Modelled from the spec: the base worker's error translation
(async.h, not under src/).  "All errors arising inside `Execute` are
captured as a status value ... and are translated into the callback's
error argument in `HandleResult`"; "on failure `result` is absent/null and
`error` carries a kind and message", with `NotFound` "reported as a normal
callback error distinct from I/O failure so callers can branch on it" — so
the error argument preserves the status's kind and message. -/
def AsyncWorker.HandleErrorCallback (s : Status) : List Event :=
  [Event.callbackCall [CallbackArg.error s]]

/-- Modelled from the spec: the base `AsyncWorker::WorkComplete`
(async.h, not under src/), as scheduled by the dispatcher after `Execute`
for every outcome.  "`Complete` always runs after `HandleResult` regardless
of success/failure": it runs `HandleOKCallback` when the recorded status is
absent or ok and `HandleErrorCallback` otherwise, then releases the
callback reference. -/
def AsyncWorker.WorkCompleteBase (w : WorkerState) (okEvents : List Event)
    (errEvents : Status → List Event) : List Event :=
  (match w.status with
   | none => okEvents
   | some s => if s.isOk then okEvents else errEvents s) ++
  [Event.callbackRelease]

/-- `IOWorker::WorkComplete` (lines 95-100): dispose the "key" carrier,
then run the base `WorkComplete`. -/
def IOWorker.WorkComplete (w : WorkerState) (okEvents : List Event)
    (errEvents : Status → List Event) : List Event :=
  Event.dispose "key" :: AsyncWorker.WorkCompleteBase w okEvents errEvents

/-- `WriteWorker::WorkComplete` (lines 197-202): dispose the "value"
carrier, then run `IOWorker::WorkComplete` (which disposes "key" and runs
the base). -/
def WriteWorker.WorkComplete (w : WorkerState) (okEvents : List Event)
    (errEvents : Status → List Event) : List Event :=
  Event.dispose "value" :: IOWorker.WorkComplete w okEvents errEvents

/-- `ApproximateSizeWorker::WorkComplete` (lines 251-257): dispose the
"start" and "end" carriers, then run the base `WorkComplete`. -/
def ApproximateSizeWorker.WorkComplete (w : WorkerState)
    (okEvents : List Event) (errEvents : Status → List Event) : List Event :=
  Event.dispose "start" :: Event.dispose "end" ::
    AsyncWorker.WorkCompleteBase w okEvents errEvents

/-- `CloseWorker::WorkComplete` (lines 71-76): call `HandleOKCallback`
unconditionally — no status check — then delete the callback. -/
def CloseWorker.WorkComplete (_w : WorkerState) : List Event :=
  AsyncWorker.HandleOKCallback ++ [Event.callbackRelease]

/-- `ReadWorker::HandleOKCallback` (lines 129-146): materialize the value
bytes as a copied buffer when `asBuffer` is true and as a decoded string
otherwise, and call the callback with `(null, returnValue)`. -/
def ReadWorker.HandleOKCallback (asBuffer : Bool) (w : WorkerState) :
    List Event :=
  let returnValue :=
    if asBuffer then CallbackArg.buffer w.value else CallbackArg.str w.value
  [Event.callbackCall [CallbackArg.null, returnValue]]

/-- `ApproximateSizeWorker::HandleOKCallback` (lines 259-269): call the
callback with `(null, napi_create_number(env, (double) size))`. -/
def ApproximateSizeWorker.HandleOKCallback (w : WorkerState) : List Event :=
  [Event.callbackCall [CallbackArg.null, CallbackArg.num (doubleOfUInt64 w.size)]]

/-- Virtual dispatch of the completion phase (`WorkComplete` with the
variant's `HandleOKCallback` / the base error callback). -/
def WorkComplete (op : Operation) (w : WorkerState) : List Event :=
  match op with
  | .openOp _ =>
      AsyncWorker.WorkCompleteBase w AsyncWorker.HandleOKCallback
        AsyncWorker.HandleErrorCallback
  | .closeOp => CloseWorker.WorkComplete w
  | .readOp _ _ asBuffer =>
      IOWorker.WorkComplete w (ReadWorker.HandleOKCallback asBuffer w)
        AsyncWorker.HandleErrorCallback
  | .deleteOp _ _ =>
      IOWorker.WorkComplete w AsyncWorker.HandleOKCallback
        AsyncWorker.HandleErrorCallback
  | .writeOp _ _ _ =>
      WriteWorker.WorkComplete w AsyncWorker.HandleOKCallback
        AsyncWorker.HandleErrorCallback
  | .batchOp _ =>
      AsyncWorker.WorkCompleteBase w AsyncWorker.HandleOKCallback
        AsyncWorker.HandleErrorCallback
  | .approximateSizeOp _ _ =>
      ApproximateSizeWorker.WorkComplete w
        (ApproximateSizeWorker.HandleOKCallback w)
        AsyncWorker.HandleErrorCallback

/-- The whole lifecycle of one submitted operation: the dispatcher runs
`Execute` on a background thread, then unconditionally schedules the
completion phase.  Returns the caller-thread event trace and the worker
state after `Execute`. -/
def run (db : Db) (op : Operation) : List Event × WorkerState :=
  let e := Execute db op initWorker
  (WorkComplete op e.1, e.1)

/-- The persistent slots a variant's constructor chain saves a buffer
carrier into, in constructor order.  `IOWorker`'s constructor saves
"key" (line 90); `ReadWorker`'s and `DeleteWorker`'s constructors save
"key" again into the same slot (lines 118, 162); `WriteWorker`'s saves
"value" (line 188); `ApproximateSizeWorker`'s saves "start" and "end"
(lines 241-242). -/
def ctorSaves : Operation → List String
  | .openOp _ => []
  | .closeOp => []
  | .readOp _ _ _ => ["key", "key"]
  | .deleteOp _ _ => ["key", "key"]
  | .writeOp _ _ _ => ["key", "key", "value"]
  | .batchOp _ => []
  | .approximateSizeOp _ _ => ["start", "end"]

/-- The distinct buffer carriers a worker holds: persistent storage is
keyed by slot name, so saving twice into "key" leaves one carrier. -/
def heldCarriers (op : Operation) : List String :=
  (ctorSaves op).dedup

/-- The slots the completion trace disposed, in order. -/
def disposedSlots (events : List Event) : List String :=
  events.filterMap fun e =>
    match e with
    | .dispose s => some s
    | _ => none

/-- A heap of allocated byte buffers, identified by index.  Used to model
allocation: `Nan::CopyBuffer` allocates a new buffer, distinct from every
existing one. -/
structure Heap where
  bufs : List Bytes
deriving DecidableEq, Repr

/-- The contents of the buffer at address `addr` (empty if unallocated). -/
def Heap.at (h : Heap) (addr : Nat) : Bytes :=
  h.bufs.getD addr []

/-- Allocate a buffer holding `b`; returns the new heap and the fresh
address. -/
def Heap.alloc (h : Heap) (b : Bytes) : Heap × Nat :=
  ({ bufs := h.bufs ++ [b] }, h.bufs.length)

/-- `Nan::CopyBuffer(data, size)` as called on line 137: allocates a new
buffer and copies `size` bytes of `data` into it. -/
def CopyBuffer (h : Heap) (data : Bytes) (size : Nat) : Heap × Nat :=
  h.alloc (data.take size)

/-- The buffer materialization of `ReadWorker::HandleOKCallback`'s
`asBuffer` branch (line 137): `Nan::CopyBuffer((char*)value.data(),
value.size())`, where `value` is the worker's internal value slot living
at `valueAddr` in the heap. -/
def ReadWorker.materializeBuffer (h : Heap) (valueAddr : Nat) : Heap × Nat :=
  CopyBuffer h (h.at valueAddr) (h.at valueAddr).length

/-- What a variant's constructor builds, for the parts the claims compare:
the write-options record it allocated (when it allocates one) and the
persistent slots it saved. -/
structure CtorResult where
  writeOptions : Option WriteOptions
  saves : List String
deriving DecidableEq, Repr

/-- `DeleteWorker::DeleteWorker` (lines 150-163): the `IOWorker` base
constructor saves "key"; the body allocates a `WriteOptions`, sets
`options->sync = sync`, and saves "key" again. -/
def DeleteWorker.ctor (sync : Bool) : CtorResult :=
  { writeOptions := some { sync := sync }, saves := ["key", "key"] }

/-- `WriteWorker::WriteWorker` (lines 175-189): delegates to
`DeleteWorker`'s constructor — which is what builds the write options —
then saves "value". -/
def WriteWorker.ctor (sync : Bool) : CtorResult :=
  let d := DeleteWorker.ctor sync
  { d with saves := d.saves ++ ["value"] }

/-- A concrete database behaviour where every call succeeds; reads return
the bytes "hi" and the size estimate is 42. -/
def dbEx : Db :=
  { openResult := fun _ => Status.ok
    getResult := fun _ _ => (Status.ok, [104, 105])
    deleteResult := fun _ _ => Status.ok
    putResult := fun _ _ _ => Status.ok
    batchResult := fun _ => Status.ok
    approximateSizeResult := fun _ _ => 42 }

/-- A concrete database behaviour where every read misses
(`Status::NotFound`). -/
def dbNotFound : Db :=
  { dbEx with getResult := fun _ _ => (Status.notFound "NotFound:", []) }

/-- A concrete database behaviour whose size estimate `2 ^ 53 + 1` needs 54
significant bits and so is not representable as a binary64 value. -/
def dbBig : Db :=
  { dbEx with approximateSizeResult := fun _ _ => 9007199254740993 }

end Leveldown

namespace Leveldown

/-- `disposedSlots` distributes over trace concatenation. -/
lemma disposedSlots_append (a b : List Event) :
    disposedSlots (a ++ b) = disposedSlots a ++ disposedSlots b := by
  simp [disposedSlots, List.filterMap_append]

/-- For every database behaviour and every operation, the completion trace
disposes precisely the carriers the constructor chain saved. -/
lemma disposedSlots_run_perm (db : Db) (op : Operation) :
    (disposedSlots (run db op).1).Perm (heldCarriers op) := by
  cases op <;>
    · simp [run, Execute, OpenWorker.Execute, CloseWorker.Execute,
      ReadWorker.Execute, DeleteWorker.Execute, WriteWorker.Execute,
      BatchWorker.Execute, ApproximateSizeWorker.Execute, WorkComplete,
      AsyncWorker.WorkCompleteBase, IOWorker.WorkComplete,
      WriteWorker.WorkComplete, ApproximateSizeWorker.WorkComplete,
      CloseWorker.WorkComplete, AsyncWorker.HandleOKCallback,
      AsyncWorker.HandleErrorCallback, ReadWorker.HandleOKCallback,
      ApproximateSizeWorker.HandleOKCallback, SetStatus, initWorker,
      disposedSlots, heldCarriers, ctorSaves, apply_ite
        (List.filterMap fun e =>
          match e with
          | Event.dispose s => some s
          | _ => none)]
      try decide

/-- The held-carrier list of every variant has no duplicates. -/
lemma heldCarriers_nodup (op : Operation) : (heldCarriers op).Nodup :=
  List.nodup_dedup _

end Leveldown

namespace Leveldown

/-- C4: For every combination of open options, the engine options struct
handed to `Database::OpenDatabase` carries exactly the given values:
`createIfMissing`, `errorIfExists`, `writeBufferSize`, `blockSize`,
`maxOpenFiles` and `blockRestartInterval` are forwarded unchanged, and
`compression = true` selects `kSnappyCompression` (the engine's default
codec) while `compression = false` selects `kNoCompression`. -/
theorem open_options_forwarded_exactly (blockCache filterPolicy : Nat)
    (createIfMissing errorIfExists compression : Bool)
    (writeBufferSize blockSize maxOpenFiles blockRestartInterval : Nat) :
    (OpenWorker.mkOptions blockCache filterPolicy createIfMissing
        errorIfExists compression writeBufferSize blockSize maxOpenFiles
        blockRestartInterval) =
      { block_cache := blockCache
        filter_policy := filterPolicy
        create_if_missing := createIfMissing
        error_if_exists := errorIfExists
        compression :=
          if compression then CompressionType.kSnappyCompression
          else CompressionType.kNoCompression
        write_buffer_size := writeBufferSize
        block_size := blockSize
        max_open_files := maxOpenFiles
        block_restart_interval := blockRestartInterval } ∧
    (OpenWorker.mkOptions blockCache filterPolicy createIfMissing
      errorIfExists true writeBufferSize blockSize maxOpenFiles
      blockRestartInterval).compression = CompressionType.kSnappyCompression ∧
    (OpenWorker.mkOptions blockCache filterPolicy createIfMissing
      errorIfExists false writeBufferSize blockSize maxOpenFiles
      blockRestartInterval).compression = CompressionType.kNoCompression :=
  ⟨rfl, rfl, rfl⟩

/-- C1: For every operation variant and every database outcome of its
Execute phase (success or failure), the completion phase releases every
buffer-carrier slot the worker holds exactly once (the key carrier for
Read/Delete/Write, additionally the value carrier for Write, and the start
and end carriers for ApproximateSize) and releases no slot it does not
hold: no carrier is leaked or double-freed on any path. -/
theorem complete_releases_each_carrier_exactly_once (db : Db) (op : Operation)
    (slot : String) :
    (disposedSlots (run db op).1).count slot =
      if slot ∈ heldCarriers op then 1 else 0 := by
  rw [(disposedSlots_run_perm db op).count_eq]
  by_cases h : slot ∈ heldCarriers op
  · rw [if_pos h]
    exact List.count_eq_one_of_mem (heldCarriers_nodup op) h
  · rw [if_neg h]
    exact List.count_eq_zero_of_not_mem h

/-- C2 (amended): Every variant's Execute phase makes exactly its one call
into the Database handle; Open, Read, Delete, Write and Batch record the
resulting status in the worker's status slot, but Close calls
`CloseDatabase` — which returns nothing — and records no status, and
ApproximateSize records the engine's estimate in the size slot, leaving
the status slot untouched. -/
theorem execute_calls_database_and_records (db : Db) :
    (∀ o, (Execute db (Operation.openOp o) initWorker).2 =
        [DbCall.openDatabase o] ∧
      (Execute db (Operation.openOp o) initWorker).1.status =
        some (db.openResult o)) ∧
    ((Execute db Operation.closeOp initWorker).2 = [DbCall.closeDatabase] ∧
      (Execute db Operation.closeOp initWorker).1.status = none) ∧
    (∀ o key asBuffer,
      (Execute db (Operation.readOp o key asBuffer) initWorker).2 =
        [DbCall.getFromDatabase o key] ∧
      (Execute db (Operation.readOp o key asBuffer) initWorker).1.status =
        some (db.getResult o key).1) ∧
    (∀ o key, (Execute db (Operation.deleteOp o key) initWorker).2 =
        [DbCall.deleteFromDatabase o key] ∧
      (Execute db (Operation.deleteOp o key) initWorker).1.status =
        some (db.deleteResult o key)) ∧
    (∀ o key value, (Execute db (Operation.writeOp o key value) initWorker).2 =
        [DbCall.putToDatabase o key value] ∧
      (Execute db (Operation.writeOp o key value) initWorker).1.status =
        some (db.putResult o key value)) ∧
    (∀ o, (Execute db (Operation.batchOp o) initWorker).2 =
        [DbCall.writeBatchToDatabase o] ∧
      (Execute db (Operation.batchOp o) initWorker).1.status =
        some (db.batchResult o)) ∧
    (∀ start limit,
      (Execute db (Operation.approximateSizeOp start limit) initWorker).2 =
        [DbCall.approximateSizeFromDatabase start limit] ∧
      (Execute db (Operation.approximateSizeOp start limit) initWorker).1.status
        = none ∧
      (Execute db (Operation.approximateSizeOp start limit) initWorker).1.size =
        db.approximateSizeResult start limit) :=
  ⟨fun _ => ⟨rfl, rfl⟩, ⟨rfl, rfl⟩, fun _ _ _ => ⟨rfl, rfl⟩,
   fun _ _ => ⟨rfl, rfl⟩, fun _ _ _ => ⟨rfl, rfl⟩, fun _ => ⟨rfl, rfl⟩,
   fun _ _ => ⟨rfl, rfl, rfl⟩⟩

/-- C2 counterexample: the Close variant's Execute makes its database call
but records no status in the worker's status slot, and the ApproximateSize
variant's Execute likewise leaves the status slot empty — refuting the
claim that every variant's Execute records the resulting status there. -/
theorem execute_close_and_size_record_no_status :
    (Execute dbEx Operation.closeOp initWorker).2 = [DbCall.closeDatabase] ∧
    (¬ ∃ s, (Execute dbEx Operation.closeOp initWorker).1.status = some s) ∧
    (¬ ∃ s, (Execute dbEx (Operation.approximateSizeOp [] [])
        initWorker).1.status = some s) := by
  refine ⟨rfl, ?_, ?_⟩ <;>
    simp [Execute, CloseWorker.Execute, ApproximateSizeWorker.Execute,
      initWorker]

/-- C3: A Read whose Execute records `NotFound` completes by invoking the
callback with an error argument that preserves the `NotFound` kind — an
outcome distinct from every `IOError` translation and never of the
success shape (null error followed by a result). -/
theorem read_notfound_surfaced_as_distinct_error (db : Db) (o : ReadOptions)
    (key : Bytes) (asBuffer : Bool) (msg : String) (v : Bytes)
    (h : db.getResult o key = (Status.notFound msg, v)) :
    (run db (Operation.readOp o key asBuffer)).1 =
      [Event.dispose "key",
       Event.callbackCall [CallbackArg.error (Status.notFound msg)],
       Event.callbackRelease] ∧
    (∀ m, Status.notFound msg ≠ Status.ioError m) ∧
    (∀ result, [CallbackArg.error (Status.notFound msg)] ≠
      [CallbackArg.null, result]) := by
  refine ⟨?_, fun m => by simp, fun result => by simp⟩
  simp [run, Execute, ReadWorker.Execute, h, WorkComplete,
    IOWorker.WorkComplete, AsyncWorker.WorkCompleteBase, SetStatus,
    initWorker, Status.isOk, AsyncWorker.HandleErrorCallback]

/-- C3 witness: on a database whose reads miss, the Read lifecycle delivers
the `NotFound` error callback. -/
theorem read_notfound_surfaced_witness :
    dbNotFound.getResult { fill_cache := true } [107] =
      (Status.notFound "NotFound:", []) ∧
    (run dbNotFound (Operation.readOp { fill_cache := true } [107] true)).1 =
      [Event.dispose "key",
       Event.callbackCall [CallbackArg.error (Status.notFound "NotFound:")],
       Event.callbackRelease] :=
  ⟨rfl, (read_notfound_surfaced_as_distinct_error dbNotFound
    { fill_cache := true } [107] true "NotFound:" [] rfl).1⟩

/-- C5: The ApproximateSize lifecycle never fails: Execute leaves the
status slot empty for every database behaviour and range, so the
completion phase always takes the success path, invoking the callback with
a null error and the numeric estimate. -/
theorem approximate_size_never_fails (db : Db) (start limit : Bytes) :
    (run db (Operation.approximateSizeOp start limit)).2.status = none ∧
    (run db (Operation.approximateSizeOp start limit)).1 =
      [Event.dispose "start", Event.dispose "end",
       Event.callbackCall [CallbackArg.null,
         CallbackArg.num (doubleOfUInt64 (db.approximateSizeResult start
           limit))],
       Event.callbackRelease] :=
  ⟨rfl, rfl⟩

/-- C6 counterexample: with an engine estimate of `2 ^ 53 + 1`, the value
delivered to the callback is `2 ^ 53` — the `(double) size` cast rounds to
53 significant bits — so the delivered value does not equal the uint64
estimate. -/
theorem approximate_size_delivery_inexact :
    (run dbBig (Operation.approximateSizeOp [] [])).1 =
      [Event.dispose "start", Event.dispose "end",
       Event.callbackCall [CallbackArg.null,
         CallbackArg.num 9007199254740992],
       Event.callbackRelease] ∧
    dbBig.approximateSizeResult [] [] = 9007199254740993 ∧
    (9007199254740992 : Nat) ≠ 9007199254740993 := by
  refine ⟨?_, rfl, by decide⟩
  decide

/-- C6 (amended): The size delivered to the callback is the engine's
uint64 estimate converted to an IEEE-754 binary64 value (round to nearest,
ties to even), which equals the estimate exactly whenever the estimate is
at most `2 ^ 53`. -/
theorem approximate_size_delivered_as_double (db : Db) (start limit : Bytes) :
    (run db (Operation.approximateSizeOp start limit)).1 =
      [Event.dispose "start", Event.dispose "end",
       Event.callbackCall [CallbackArg.null,
         CallbackArg.num (doubleOfUInt64 (db.approximateSizeResult start
           limit))],
       Event.callbackRelease] ∧
    (db.approximateSizeResult start limit ≤ 2 ^ 53 →
      doubleOfUInt64 (db.approximateSizeResult start limit) =
        db.approximateSizeResult start limit) := by
  refine ⟨rfl, fun h => ?_⟩
  unfold doubleOfUInt64
  rw [if_pos h]

/-- C6 witness: a concrete estimate (42) is at most `2 ^ 53` and is
delivered exactly. -/
theorem approximate_size_delivered_as_double_witness :
    dbEx.approximateSizeResult [] [] ≤ 2 ^ 53 ∧
    doubleOfUInt64 (dbEx.approximateSizeResult [] []) =
      dbEx.approximateSizeResult [] [] :=
  ⟨by decide, (approximate_size_delivered_as_double dbEx [] []).2 (by decide)⟩

/-- C7: A successful Read completes by invoking the callback once with a
null error first and the value second, materialized as a binary buffer
when `asBuffer` is true and as a text-decoded string when it is false. -/
theorem read_success_materializes_value (db : Db) (o : ReadOptions)
    (key : Bytes) (asBuffer : Bool) (v : Bytes)
    (h : db.getResult o key = (Status.ok, v)) :
    (run db (Operation.readOp o key asBuffer)).1 =
      [Event.dispose "key",
       Event.callbackCall [CallbackArg.null,
         if asBuffer then CallbackArg.buffer v else CallbackArg.str v],
       Event.callbackRelease] := by
  simp [run, Execute, ReadWorker.Execute, h, WorkComplete,
    IOWorker.WorkComplete, AsyncWorker.WorkCompleteBase, SetStatus,
    initWorker, Status.isOk, ReadWorker.HandleOKCallback]

/-- C7 witness: on a database whose reads return the bytes "hi", the Read
lifecycle delivers `(null, buffer "hi")` with `asBuffer = true`. -/
theorem read_success_materializes_value_witness :
    dbEx.getResult { fill_cache := true } [107] = (Status.ok, [104, 105]) ∧
    (run dbEx (Operation.readOp { fill_cache := true } [107] true)).1 =
      [Event.dispose "key",
       Event.callbackCall [CallbackArg.null, CallbackArg.buffer [104, 105]],
       Event.callbackRelease] := by
  refine ⟨rfl, ?_⟩
  have hthm := read_success_materializes_value dbEx { fill_cache := true }
    [107] true [104, 105] rfl
  simpa using hthm

/-- C8: For every value of the sync flag, the Write worker's write options
are those built by the Delete worker's constructor — `WriteWorker`'s
constructor delegates to `DeleteWorker`'s — and both are the record whose
sync field equals the flag. -/
theorem write_delete_same_write_options (sync : Bool) :
    (WriteWorker.ctor sync).writeOptions = (DeleteWorker.ctor sync).writeOptions ∧
    (DeleteWorker.ctor sync).writeOptions = some { sync := sync } ∧
    (WriteWorker.ctor sync).writeOptions = some { sync := sync } :=
  ⟨rfl, rfl, rfl⟩

/-- C9: The Close completion phase, for every worker state (any status its
Execute could have produced) and every database behaviour, invokes the
callback exactly once, in the success shape (single null argument), and
then releases the callback reference. -/
theorem close_complete_always_success_and_releases (db : Db)
    (w : WorkerState) :
    CloseWorker.WorkComplete w =
      [Event.callbackCall [CallbackArg.null], Event.callbackRelease] ∧
    (run db Operation.closeOp).1 =
      [Event.callbackCall [CallbackArg.null], Event.callbackRelease] :=
  ⟨rfl, rfl⟩

/-- C10: The buffer the Read success path hands to the callback is a fresh
allocation: it holds byte-for-byte the worker's value, has exactly the
value's length, and its address differs from the worker's internal value
storage, which is left intact. -/
theorem read_buffer_is_fresh_copy (h : Heap) (valueAddr : Nat)
    (hv : valueAddr < h.bufs.length) :
    (ReadWorker.materializeBuffer h valueAddr).1.at
        (ReadWorker.materializeBuffer h valueAddr).2 = h.at valueAddr ∧
    ((ReadWorker.materializeBuffer h valueAddr).1.at
        (ReadWorker.materializeBuffer h valueAddr).2).length =
      (h.at valueAddr).length ∧
    (ReadWorker.materializeBuffer h valueAddr).2 ≠ valueAddr ∧
    (ReadWorker.materializeBuffer h valueAddr).1.at valueAddr =
      h.at valueAddr := by
  have hm : ReadWorker.materializeBuffer h valueAddr =
      (Heap.mk (h.bufs ++ [h.at valueAddr]), h.bufs.length) := by
    simp [ReadWorker.materializeBuffer, CopyBuffer, Heap.alloc,
      List.take_length]
  have h1 : (ReadWorker.materializeBuffer h valueAddr).1.at
      (ReadWorker.materializeBuffer h valueAddr).2 = h.at valueAddr := by
    rw [hm]
    show (h.bufs ++ [h.at valueAddr]).getD h.bufs.length [] = h.at valueAddr
    rw [List.getD_append_right _ _ _ _ (le_refl _), Nat.sub_self]
    rfl
  have h4 : (ReadWorker.materializeBuffer h valueAddr).1.at valueAddr =
      h.at valueAddr := by
    rw [hm]
    show (h.bufs ++ [h.at valueAddr]).getD valueAddr [] = h.at valueAddr
    rw [List.getD_append _ _ _ _ hv]
    rfl
  refine ⟨h1, by rw [h1], ?_, h4⟩
  rw [hm]
  intro hc
  simp only at hc
  omega

/-- C10 witness: copying out of a one-buffer heap yields an equal buffer at
a fresh address. -/
theorem read_buffer_is_fresh_copy_witness :
    0 < (Heap.mk [[1, 2, 3]]).bufs.length ∧
    (ReadWorker.materializeBuffer (Heap.mk [[1, 2, 3]]) 0).1.at
        (ReadWorker.materializeBuffer (Heap.mk [[1, 2, 3]]) 0).2 =
      (Heap.mk [[1, 2, 3]]).at 0 ∧
    (ReadWorker.materializeBuffer (Heap.mk [[1, 2, 3]]) 0).2 ≠ 0 :=
  ⟨by decide,
   (read_buffer_is_fresh_copy (Heap.mk [[1, 2, 3]]) 0 (by decide)).1,
   (read_buffer_is_fresh_copy (Heap.mk [[1, 2, 3]]) 0 (by decide)).2.2.1⟩

end Leveldown
